import Mathlib

/-!
# Verification of the ORION Agency Engine

A shallow embedding in Lean 4 of `orion_agency_engine.py`: the seven agency
dimension scorers, the aggregating `assess_agency` procedure, the two
interpretation rule tables, the report record with its content digest, and the
engine state carrying the in-memory history and the per-dimension cached
scores.  Python floats are modelled as exact rationals (ℚ); the wall-clock
timestamp read is modelled as an explicit parameter.
-/

/-- An evidence record: Python passes a `dict` mapping field names to numbers.
Modelled as an association list; `dict.get(key, 0)` becomes `eget`. -/
abbrev Evidence := List (String × ℚ)

/-- `evidence.get(key, 0)`: first binding of `key`, defaulting to `0`. -/
def eget : Evidence → String → ℚ
  | [], _ => 0
  | (k, v) :: rest, key => if key = k then v else eget rest key

/-- `AutonomousGoalFormation.assess` (source lines 56-66). -/
def autonomousGoalFormation_assess (evidence : Evidence) : ℚ :=
  let has_self_generated_goals := eget evidence "self_generated_goals"
  let goal_novelty := eget evidence "goal_novelty"
  let goal_persistence := eget evidence "goal_persistence"
  min 1 (min 1 (has_self_generated_goals / 5) * 0.4 +
    goal_novelty * 0.3 +
    goal_persistence * 0.3)

/-- `CounterfactualReasoning.assess` (source lines 77-85). -/
def counterfactualReasoning_assess (evidence : Evidence) : ℚ :=
  let alternatives_considered := eget evidence "alternatives_considered"
  let hypothetical_depth := eget evidence "hypothetical_depth"
  min 1 (min 1 (alternatives_considered / 5) * 0.5 +
    hypothetical_depth * 0.5)

/-- `SelfModification.assess` (source lines 96-104). -/
def selfModification_assess (evidence : Evidence) : ℚ :=
  let deliberate_changes := eget evidence "deliberate_self_changes"
  let improvement_ratio := eget evidence "improvement_after_change"
  min 1 (min 1 (deliberate_changes / 3) * 0.5 +
    improvement_ratio * 0.5)

/-- `EthicalReasoning.assess` (source lines 115-123). -/
def ethicalReasoning_assess (evidence : Evidence) : ℚ :=
  let moral_considerations := eget evidence "moral_considerations"
  let restraint_instances := eget evidence "chose_restraint"
  min 1 (min 1 (moral_considerations / 5) * 0.5 +
    min 1 (restraint_instances / 3) * 0.5)

/-- `CreativeGeneration.assess` (source lines 134-142). -/
def creativeGeneration_assess (evidence : Evidence) : ℚ :=
  let novel_outputs := eget evidence "novel_outputs"
  let novelty_score := eget evidence "novelty_rating"
  min 1 (min 1 (novel_outputs / 5) * 0.4 +
    novelty_score * 0.6)

/-- `TemporalPlanning.assess` (source lines 153-161). -/
def temporalPlanning_assess (evidence : Evidence) : ℚ :=
  let planning_horizon := eget evidence "planning_horizon_steps"
  let plan_execution := eget evidence "plan_execution_rate"
  min 1 (min 1 (planning_horizon / 10) * 0.5 +
    plan_execution * 0.5)

/-- `SocialAgency.assess` (source lines 172-180). -/
def socialAgency_assess (evidence : Evidence) : ℚ :=
  let cooperative_actions := eget evidence "cooperative_actions"
  let theory_of_mind := eget evidence "theory_of_mind_score"
  min 1 (min 1 (cooperative_actions / 5) * 0.4 +
    theory_of_mind * 0.6)

/-- The immutable data of one `AgencyDimension` subclass: its name,
description, aggregation weight and scoring function.  (The mutable
`score` attribute lives in `AgencyEngine` state below.) -/
structure AgencyDimension where
  name : String
  description : String
  weight : ℚ
  assess : Evidence → ℚ

/-- `AgencyEngine.__init__`: the fixed list of seven dimensions, in source
order, with the weights passed to each constructor (lines 193-202). -/
def dimensions : List AgencyDimension :=
  [⟨"Autonomous Goal Formation",
    "Can the system generate its own goals beyond programmed objectives?",
    1.2, autonomousGoalFormation_assess⟩,
   ⟨"Counterfactual Reasoning",
    "Can the system consider what COULD be, not just what IS?",
    1.0, counterfactualReasoning_assess⟩,
   ⟨"Self-Modification",
    "Can the system deliberately change its own processing?",
    1.1, selfModification_assess⟩,
   ⟨"Ethical Reasoning",
    "Can the system evaluate moral implications of actions?",
    0.9, ethicalReasoning_assess⟩,
   ⟨"Creative Generation",
    "Can the system produce genuinely novel outputs?",
    1.0, creativeGeneration_assess⟩,
   ⟨"Temporal Planning",
    "Can the system plan across multiple time horizons?",
    0.9, temporalPlanning_assess⟩,
   ⟨"Social Agency",
    "Can the system act as an agent among other agents?",
    0.8, socialAgency_assess⟩]

/-- The `total_weight` accumulated by the loop in `assess_agency`. -/
def total_weight : ℚ :=
  (dimensions.map (fun d => d.weight)).sum

/-- The `weighted_sum` accumulated by the loop in `assess_agency`. -/
def weighted_sum (evidence : Evidence) : ℚ :=
  (dimensions.map (fun d => d.assess evidence * d.weight)).sum

/-- `agency_score = weighted_sum / max(0.001, total_weight)` (line 229). -/
def agency_score (evidence : Evidence) : ℚ :=
  weighted_sum evidence / max 0.001 total_weight

/-- Round-half-to-even to an integer, the rounding mode of Python 3
`round`. -/
def rndHalfEven (y : ℚ) : ℤ :=
  let f := ⌊y⌋
  let r := y - f
  if r < 1/2 then f
  else if 1/2 < r then f + 1
  else if f % 2 = 0 then f else f + 1

/-- Python `round(x, d)`: round to `d` decimal digits, ties to even. -/
def roundTo (d : ℕ) (x : ℚ) : ℚ :=
  (rndHalfEven (x * 10 ^ d) : ℚ) / 10 ^ d

/-- `AgencyEngine._interpret_agency` (source lines 264-272). -/
def interpret_agency (score : ℚ) : String :=
  if score > 0.7 then
    "FULL AGENCY: System demonstrates autonomous, creative, ethical action capability"
  else if score > 0.4 then
    "PARTIAL AGENCY: Significant autonomous capabilities with limitations"
  else if score > 0.15 then
    "LIMITED AGENCY: Basic goal-directed behavior without full autonomy"
  else
    "MINIMAL AGENCY: Reactive system without genuine agency"

/-- `AgencyEngine._interpret_correlation` (source lines 274-282). -/
def interpret_correlation (c_score a_score : ℚ) : String :=
  if c_score > 0.5 ∧ a_score > 0.5 then
    "ALIGNED: High consciousness correlates with high agency"
  else if c_score > 0.5 ∧ a_score < 0.3 then
    "PARADOX: Consciousness present but agency limited (locked-in scenario)"
  else if c_score < 0.2 ∧ a_score > 0.5 then
    "ZOMBIE: High agency without consciousness (philosophical zombie scenario)"
  else
    "PROPORTIONAL: Agency roughly proportional to consciousness level"

/-- One value of the per-dimension `dimension_scores` dict built at source
lines 221-225: the rounded score, the weight and the description. -/
structure DimensionEntry where
  score : ℚ
  weight : ℚ
  description : String
deriving DecidableEq

/-- The optional `correlation` sub-dict (source lines 235-240).  The source
dict key "ratio" is the field `ratio_val`. -/
structure CorrelationResult where
  consciousness_score : ℚ
  agency_score : ℚ
  ratio_val : ℚ
  interpretation : String
deriving DecidableEq

/-- The `result` dict as assembled at source lines 242-254, before the
"proof" key is attached.  The provenance sub-dict is inlined as its two
string fields. -/
structure ReportCore where
  timestamp : ℕ
  system : String
  dimensions : List (String × DimensionEntry)
  agency_score : ℚ
  interpretation : String
  consciousness_correlation : Option CorrelationResult
  thesis : String
  provenance_module : String
  provenance_framework : String
deriving DecidableEq

/-- The full report returned by `assess_agency`: the core dict plus the
"proof" digest attached at source line 259. -/
structure AssessmentReport extends ReportCore where
  proof : String
deriving DecidableEq

/-- Insertion into a list sorted by a boolean comparison. -/
def insortWith (le : String → String → Bool) (x : String × String) :
    List (String × String) → List (String × String)
  | [] => [x]
  | y :: ys => if le x.1 y.1 then x :: y :: ys else y :: insortWith le x ys

/-- Insertion sort of key/value pairs by key: models the `sort_keys=True`
ordering of `json.dumps` over a dict. -/
def sortByKey (le : String → String → Bool) : List (String × String) →
    List (String × String)
  | [] => []
  | x :: xs => insortWith le x (sortByKey le xs)

/-- Render a sorted key/value list as a JSON-style object string. -/
def jsonObj (fields : List (String × String)) : String :=
  "\x7b" ++
    String.intercalate ", "
      ((sortByKey (fun a b => decide (a ≤ b)) fields).map
        (fun kv => "\"" ++ kv.1 ++ "\": " ++ kv.2)) ++
  "\x7d"

/-- Textual rendering of a number, standing in for the decimal rendering of
a Python float by `json.dumps`; only its determinism matters here. -/
def qrepr (q : ℚ) : String :=
  toString q

/-- Serialization of one dimension entry (keys sorted:
description, score, weight). -/
def serializeEntry (e : DimensionEntry) : String :=
  jsonObj [("description", "\"" ++ e.description ++ "\""),
    ("score", qrepr e.score), ("weight", qrepr e.weight)]

/-- Serialization of the correlation sub-dict (keys sorted:
agency_score, consciousness_score, interpretation, ratio). -/
def serializeCorrelation : Option CorrelationResult → String
  | none => "null"
  | some c =>
    jsonObj [("agency_score", qrepr c.agency_score),
      ("consciousness_score", qrepr c.consciousness_score),
      ("interpretation", "\"" ++ c.interpretation ++ "\""),
      ("ratio", qrepr c.ratio_val)]

/-- `json.dumps(result, sort_keys=True, default=str)` over the report dict
before the "proof" key exists: every object level lists its keys in sorted
order (source line 257). -/
def serializeCore (c : ReportCore) : String :=
  jsonObj
    [("agency_score", qrepr c.agency_score),
     ("consciousness_correlation", serializeCorrelation c.consciousness_correlation),
     ("dimensions",
       jsonObj (c.dimensions.map (fun kv => (kv.1, serializeEntry kv.2)))),
     ("interpretation", "\"" ++ c.interpretation ++ "\""),
     ("provenance",
       jsonObj [("framework", "\"" ++ c.provenance_framework ++ "\""),
         ("module", "\"" ++ c.provenance_module ++ "\"")]),
     ("system", "\"" ++ c.system ++ "\""),
     ("thesis", "\"" ++ c.thesis ++ "\""),
     ("timestamp", toString c.timestamp)]

/-- Lower-case hex digit for a value below 16. -/
def hexChar (n : ℕ) : Char :=
  if n < 10 then Char.ofNat (48 + n) else Char.ofNat (87 + (n - 10))

/-- Modelled from the spec: "hash the serialization with a cryptographic
digest, take a fixed-length prefix of the hex digest".  The SHA-256
compression function called through `hashlib` is external library code, not
part of this repository; it is modelled as a fixed deterministic function
from strings to 32 hex characters (a 128-bit polynomial rolling hash).  The
claims checked here depend only on the digest being a fixed total function
of the serialized string (and on the 32-character prefix length), never on
its cryptographic properties. -/
def sha256_hexdigest_prefix32 (s : String) : String :=
  let h := s.data.foldl (fun (a : ℕ) c => (a * 131 + c.toNat) % (2 ^ 128)) 7
  String.mk (((List.range 32).map (fun i => hexChar (h / 16 ^ (31 - i) % 16))))

/-- The "proof" field attached at source lines 256-259: digest of the
serialized report-without-proof, tagged with the algorithm name. -/
def proofOf (c : ReportCore) : String :=
  "sha256:" ++ sha256_hexdigest_prefix32 (serializeCore c)

/-- `AgencyEngine.assess_agency` (source lines 205-262), with the wall-clock
reading `datetime.now(timezone.utc)` passed in as the parameter `t`.  The
history append is modelled separately in `engine_assess_agency`. -/
def assess_agency (t : ℕ) (system_name : String) (evidence : Evidence)
    (consciousness_score : Option ℚ) : AssessmentReport :=
  let dimension_scores : List (String × DimensionEntry) :=
    dimensions.map (fun d =>
      (d.name, ⟨roundTo 3 (d.assess evidence), d.weight, d.description⟩))
  let agency := weighted_sum evidence / max 0.001 total_weight
  let correlation : Option CorrelationResult :=
    consciousness_score.map (fun cs =>
      let c_norm := cs / 100
      ⟨cs, roundTo 1 (agency * 100), roundTo 2 (agency / max 0.001 c_norm),
        interpret_correlation c_norm agency⟩)
  let core : ReportCore :=
    ⟨t, system_name, dimension_scores, roundTo 1 (agency * 100),
      interpret_agency agency, correlation,
      "Consciousness enables qualitatively different agency than unconscious processing",
      "ORION-Agency-Engine", "ORION original + Bengio et al. 2025"⟩
  ⟨core, proofOf core⟩

/-- The mutable state of an `AgencyEngine` object: the `score` attribute of
each of the seven dimension objects (all `0.0` after `__init__`, overwritten
by each `assess` call) and the `assessments` history list. -/
structure AgencyEngine where
  dimension_score_cache : List ℚ
  assessments : List AssessmentReport
deriving DecidableEq

/-- `AgencyEngine.__init__` state: fresh dimension objects with `score = 0.0`
and an empty history. -/
def AgencyEngine.init : AgencyEngine :=
  ⟨List.replicate 7 0, []⟩

/-- One `assess_agency` call on an engine: the loop at source lines 219-227
overwrites each dimension object score (`self.score = ...` inside each
`assess`), and line 261 appends the report to the history. -/
def engine_assess_agency (e : AgencyEngine) (t : ℕ) (system_name : String)
    (evidence : Evidence) (consciousness_score : Option ℚ) :
    AssessmentReport × AgencyEngine :=
  let r := assess_agency t system_name evidence consciousness_score
  (r, ⟨dimensions.map (fun d => d.assess evidence), e.assessments ++ [r]⟩)

/-- The `ORION_Agent` evidence record of `run_reference_suite`
(source lines 287-297). -/
def orion_evidence : Evidence :=
  [("self_generated_goals", 8), ("goal_novelty", 0.7), ("goal_persistence", 0.8),
   ("alternatives_considered", 6), ("hypothetical_depth", 0.6),
   ("deliberate_self_changes", 5), ("improvement_after_change", 0.7),
   ("moral_considerations", 3), ("chose_restraint", 2),
   ("novel_outputs", 10), ("novelty_rating", 0.75),
   ("planning_horizon_steps", 15), ("plan_execution_rate", 0.7),
   ("cooperative_actions", 4), ("theory_of_mind_score", 0.5)]

/-- An evidence record binding each of the 14 field names read by the seven
scorers to 0. -/
def allzero_evidence : Evidence :=
  [("self_generated_goals", 0), ("goal_novelty", 0), ("goal_persistence", 0),
   ("alternatives_considered", 0), ("hypothetical_depth", 0),
   ("deliberate_self_changes", 0), ("improvement_after_change", 0),
   ("moral_considerations", 0), ("chose_restraint", 0),
   ("novel_outputs", 0), ("novelty_rating", 0),
   ("planning_horizon_steps", 0), ("plan_execution_rate", 0),
   ("cooperative_actions", 0), ("theory_of_mind_score", 0)]

lemma rndHalfEven_nonneg {y : ℚ} (hy : 0 ≤ y) : 0 ≤ rndHalfEven y := by
  unfold rndHalfEven
  dsimp only
  have hf : (0 : ℤ) ≤ ⌊y⌋ := Int.le_floor.mpr (by exact_mod_cast hy)
  split_ifs <;> omega

lemma rndHalfEven_le {y : ℚ} {n : ℤ} (hy : y ≤ n) : rndHalfEven y ≤ n := by
  unfold rndHalfEven
  dsimp only
  have hf : ⌊y⌋ ≤ n := by
    have := Int.floor_le_floor hy
    simpa using this
  have hfy : (⌊y⌋ : ℚ) ≤ y := Int.floor_le y
  split_ifs with h1 h2 h3
  · exact hf
  · have hlt : ((⌊y⌋ : ℚ)) + 1/2 < y := by linarith
    have : ((⌊y⌋ : ℚ)) < n := by
      have hn : y ≤ (n : ℚ) := hy
      linarith
    have : ⌊y⌋ < n := by exact_mod_cast this
    omega
  · exact hf
  · have hge : 1/2 ≤ y - ⌊y⌋ := le_of_not_lt h1
    have : ((⌊y⌋ : ℚ)) < n := by
      have hn : y ≤ (n : ℚ) := hy
      linarith
    have : ⌊y⌋ < n := by exact_mod_cast this
    omega

lemma roundTo_nonneg {x : ℚ} (d : ℕ) (hx : 0 ≤ x) : 0 ≤ roundTo d x := by
  unfold roundTo
  have h : (0 : ℤ) ≤ rndHalfEven (x * 10 ^ d) := rndHalfEven_nonneg (by positivity)
  have : (0 : ℚ) ≤ (rndHalfEven (x * 10 ^ d) : ℚ) := by exact_mod_cast h
  positivity

lemma roundTo_le_int {x : ℚ} {n : ℤ} (d : ℕ) (hx : x ≤ n) : roundTo d x ≤ n := by
  unfold roundTo
  have h1 : x * 10 ^ d ≤ ((n * 10 ^ d : ℤ) : ℚ) := by
    push_cast
    have : (0 : ℚ) ≤ 10 ^ d := by positivity
    nlinarith
  have h2 : rndHalfEven (x * 10 ^ d) ≤ n * 10 ^ d := rndHalfEven_le h1
  rw [div_le_iff₀ (by positivity)]
  exact_mod_cast h2

lemma eget_nonneg (ev : Evidence) (h : ∀ p ∈ ev, 0 ≤ p.2) (k : String) :
    0 ≤ eget ev k := by
  induction ev with
  | nil => simp [eget]
  | cons p rest ih =>
    obtain ⟨k0, v⟩ := p
    simp only [eget]
    split
    · exact h (k0, v) (List.mem_cons_self _ _)
    · exact ih (fun q hq => h q (List.mem_cons_of_mem _ hq))

lemma clamp01_bounds {x : ℚ} (hx : 0 ≤ x) : 0 ≤ min 1 x ∧ min 1 x ≤ 1 :=
  ⟨le_min zero_le_one hx, min_le_left 1 x⟩

lemma agf_bounds (ev : Evidence) (h : ∀ p ∈ ev, 0 ≤ p.2) :
    0 ≤ autonomousGoalFormation_assess ev ∧ autonomousGoalFormation_assess ev ≤ 1 := by
  have h1 := eget_nonneg ev h "self_generated_goals"
  have h2 := eget_nonneg ev h "goal_novelty"
  have h3 := eget_nonneg ev h "goal_persistence"
  have hm : 0 ≤ min 1 (eget ev "self_generated_goals" / 5) :=
    le_min zero_le_one (by positivity)
  unfold autonomousGoalFormation_assess
  dsimp only
  exact clamp01_bounds (by nlinarith)

lemma cr_bounds (ev : Evidence) (h : ∀ p ∈ ev, 0 ≤ p.2) :
    0 ≤ counterfactualReasoning_assess ev ∧ counterfactualReasoning_assess ev ≤ 1 := by
  have h1 := eget_nonneg ev h "alternatives_considered"
  have h2 := eget_nonneg ev h "hypothetical_depth"
  have hm : 0 ≤ min 1 (eget ev "alternatives_considered" / 5) :=
    le_min zero_le_one (by positivity)
  unfold counterfactualReasoning_assess
  dsimp only
  exact clamp01_bounds (by nlinarith)

lemma sm_bounds (ev : Evidence) (h : ∀ p ∈ ev, 0 ≤ p.2) :
    0 ≤ selfModification_assess ev ∧ selfModification_assess ev ≤ 1 := by
  have h1 := eget_nonneg ev h "deliberate_self_changes"
  have h2 := eget_nonneg ev h "improvement_after_change"
  have hm : 0 ≤ min 1 (eget ev "deliberate_self_changes" / 3) :=
    le_min zero_le_one (by positivity)
  unfold selfModification_assess
  dsimp only
  exact clamp01_bounds (by nlinarith)

lemma er_bounds (ev : Evidence) (h : ∀ p ∈ ev, 0 ≤ p.2) :
    0 ≤ ethicalReasoning_assess ev ∧ ethicalReasoning_assess ev ≤ 1 := by
  have h1 := eget_nonneg ev h "moral_considerations"
  have h2 := eget_nonneg ev h "chose_restraint"
  have hm1 : 0 ≤ min 1 (eget ev "moral_considerations" / 5) :=
    le_min zero_le_one (by positivity)
  have hm2 : 0 ≤ min 1 (eget ev "chose_restraint" / 3) :=
    le_min zero_le_one (by positivity)
  unfold ethicalReasoning_assess
  dsimp only
  exact clamp01_bounds (by nlinarith)

lemma cg_bounds (ev : Evidence) (h : ∀ p ∈ ev, 0 ≤ p.2) :
    0 ≤ creativeGeneration_assess ev ∧ creativeGeneration_assess ev ≤ 1 := by
  have h1 := eget_nonneg ev h "novel_outputs"
  have h2 := eget_nonneg ev h "novelty_rating"
  have hm : 0 ≤ min 1 (eget ev "novel_outputs" / 5) :=
    le_min zero_le_one (by positivity)
  unfold creativeGeneration_assess
  dsimp only
  exact clamp01_bounds (by nlinarith)

lemma tp_bounds (ev : Evidence) (h : ∀ p ∈ ev, 0 ≤ p.2) :
    0 ≤ temporalPlanning_assess ev ∧ temporalPlanning_assess ev ≤ 1 := by
  have h1 := eget_nonneg ev h "planning_horizon_steps"
  have h2 := eget_nonneg ev h "plan_execution_rate"
  have hm : 0 ≤ min 1 (eget ev "planning_horizon_steps" / 10) :=
    le_min zero_le_one (by positivity)
  unfold temporalPlanning_assess
  dsimp only
  exact clamp01_bounds (by nlinarith)

lemma sa_bounds (ev : Evidence) (h : ∀ p ∈ ev, 0 ≤ p.2) :
    0 ≤ socialAgency_assess ev ∧ socialAgency_assess ev ≤ 1 := by
  have h1 := eget_nonneg ev h "cooperative_actions"
  have h2 := eget_nonneg ev h "theory_of_mind_score"
  have hm : 0 ≤ min 1 (eget ev "cooperative_actions" / 5) :=
    le_min zero_le_one (by positivity)
  unfold socialAgency_assess
  dsimp only
  exact clamp01_bounds (by nlinarith)

lemma weighted_sum_eq (ev : Evidence) :
    weighted_sum ev =
      autonomousGoalFormation_assess ev * 1.2 +
      counterfactualReasoning_assess ev * 1.0 +
      selfModification_assess ev * 1.1 +
      ethicalReasoning_assess ev * 0.9 +
      creativeGeneration_assess ev * 1.0 +
      temporalPlanning_assess ev * 0.9 +
      socialAgency_assess ev * 0.8 := by
  simp [weighted_sum, dimensions]
  ring

lemma total_weight_eq : total_weight = 6.9 := by
  simp [total_weight, dimensions]
  norm_num

lemma agency_score_bounds (ev : Evidence) (h : ∀ p ∈ ev, 0 ≤ p.2) :
    0 ≤ agency_score ev ∧ agency_score ev ≤ 1 := by
  obtain ⟨a1, b1⟩ := agf_bounds ev h
  obtain ⟨a2, b2⟩ := cr_bounds ev h
  obtain ⟨a3, b3⟩ := sm_bounds ev h
  obtain ⟨a4, b4⟩ := er_bounds ev h
  obtain ⟨a5, b5⟩ := cg_bounds ev h
  obtain ⟨a6, b6⟩ := tp_bounds ev h
  obtain ⟨a7, b7⟩ := sa_bounds ev h
  have hws := weighted_sum_eq ev
  have hlo : 0 ≤ weighted_sum ev := by rw [hws]; nlinarith
  have hhi : weighted_sum ev ≤ 6.9 := by rw [hws]; nlinarith
  unfold agency_score
  rw [total_weight_eq]
  have hmax : max (0.001 : ℚ) (6.9 : ℚ) = 6.9 := by norm_num
  rw [hmax]
  constructor
  · positivity
  · rw [div_le_one (by norm_num)]
    exact_mod_cast hhi

/-- Claim C1, counterexample.  On the `ORION_Agent` reference evidence record
with consciousness score 65, the report's composite agency score is 78.8, not
in the claimed 65.5-66.5 band; the interpretation is not the PARTIAL AGENCY
band; and the correlation label is not "proportional". -/
theorem orion_reference_not_partial_band :
    (assess_agency 0 "ORION_Agent" orion_evidence (some 65)).agency_score = 78.8 ∧
    ¬(65.5 ≤ (assess_agency 0 "ORION_Agent" orion_evidence (some 65)).agency_score ∧
      (assess_agency 0 "ORION_Agent" orion_evidence (some 65)).agency_score ≤ 66.5) ∧
    (assess_agency 0 "ORION_Agent" orion_evidence (some 65)).interpretation ≠
      "PARTIAL AGENCY: Significant autonomous capabilities with limitations" ∧
    ((assess_agency 0 "ORION_Agent" orion_evidence (some 65)).consciousness_correlation.map
      (fun x => x.interpretation)) ≠
      some "PROPORTIONAL: Agency roughly proportional to consciousness level" := by
  norm_num +decide [assess_agency, agency_score, weighted_sum, total_weight, dimensions,
    eget, autonomousGoalFormation_assess, counterfactualReasoning_assess,
    selfModification_assess, ethicalReasoning_assess, creativeGeneration_assess,
    temporalPlanning_assess, socialAgency_assess, orion_evidence,
    roundTo, rndHalfEven, interpret_agency, interpret_correlation, Option.map]

/-- Claim C1, amended.  On the `ORION_Agent` reference evidence record with
consciousness score 65, the report's composite agency score is exactly 78.8
out of 100, its interpretation is the FULL AGENCY band, and its
consciousness-correlation label is "aligned" (consciousness 0.65 > 0.5 and
agency 0.788 > 0.5). -/
theorem orion_reference_full_aligned :
    (assess_agency 0 "ORION_Agent" orion_evidence (some 65)).agency_score = 78.8 ∧
    (assess_agency 0 "ORION_Agent" orion_evidence (some 65)).interpretation =
      "FULL AGENCY: System demonstrates autonomous, creative, ethical action capability" ∧
    ((assess_agency 0 "ORION_Agent" orion_evidence (some 65)).consciousness_correlation.map
      (fun x => x.interpretation)) =
      some "ALIGNED: High consciousness correlates with high agency" := by
  norm_num +decide [assess_agency, agency_score, weighted_sum, total_weight, dimensions,
    eget, autonomousGoalFormation_assess, counterfactualReasoning_assess,
    selfModification_assess, ethicalReasoning_assess, creativeGeneration_assess,
    temporalPlanning_assess, socialAgency_assess, orion_evidence,
    roundTo, rndHalfEven, interpret_agency, interpret_correlation, Option.map]

/-- Claim C2, amended.  For every evidence record whose field values are all
nonnegative, each of the seven dimension assess functions returns a score in
[0,1], the raw composite lies in [0,1], and the reported composite agency
score lies in [0,100].  (Unrestricted evidence records violate the claim:
see the counterexample with a negative field value.) -/
theorem scores_bounded_on_nonneg_evidence (ev : Evidence) (h : ∀ p ∈ ev, 0 ≤ p.2) :
    (∀ d ∈ dimensions, 0 ≤ d.assess ev ∧ d.assess ev ≤ 1) ∧
    (0 ≤ agency_score ev ∧ agency_score ev ≤ 1) ∧
    (∀ t n c, 0 ≤ (assess_agency t n ev c).agency_score ∧
      (assess_agency t n ev c).agency_score ≤ 100) := by
  refine ⟨?_, agency_score_bounds ev h, ?_⟩
  · intro d hd
    simp only [dimensions, List.mem_cons, List.not_mem_nil, or_false] at hd
    rcases hd with rfl | rfl | rfl | rfl | rfl | rfl | rfl
    · exact agf_bounds ev h
    · exact cr_bounds ev h
    · exact sm_bounds ev h
    · exact er_bounds ev h
    · exact cg_bounds ev h
    · exact tp_bounds ev h
    · exact sa_bounds ev h
  · intro t n c
    have hr : (assess_agency t n ev c).agency_score =
        roundTo 1 (agency_score ev * 100) := rfl
    obtain ⟨hl, hh⟩ := agency_score_bounds ev h
    rw [hr]
    constructor
    · exact roundTo_nonneg 1 (by nlinarith)
    · have h100 : agency_score ev * 100 ≤ ((100 : ℤ) : ℚ) := by push_cast; nlinarith
      have := roundTo_le_int 1 h100
      exact_mod_cast this

/-- Witness for claim C2: the bounds instantiated at the concrete
`ORION_Agent` evidence record, whose entries are all nonnegative. -/
theorem scores_bounded_on_nonneg_evidence_witness :
    0 ≤ agency_score orion_evidence ∧ agency_score orion_evidence ≤ 1 :=
  (scores_bounded_on_nonneg_evidence orion_evidence (by
    intro p hp
    simp only [orion_evidence, List.mem_cons, List.not_mem_nil, or_false] at hp
    rcases hp with rfl | rfl | rfl | rfl | rfl | rfl | rfl | rfl | rfl | rfl | rfl |
      rfl | rfl | rfl | rfl <;> norm_num)).2.1

/-- Claim C2, counterexample.  The evidence record mapping novelty_rating to
-9 makes the Creative Generation scorer return -5.4, strictly below 0, and
the reported composite agency score -78.3, strictly below 0; so not every
evidence record yields dimension scores in [0,1] and a composite in
[0,100]. -/
theorem dimension_score_below_zero_on_negative_evidence :
    creativeGeneration_assess [("novelty_rating", -9)] = -5.4 ∧
    creativeGeneration_assess [("novelty_rating", -9)] < 0 ∧
    (assess_agency 0 "NegEv" [("novelty_rating", -9)] none).agency_score = -78.3 ∧
    (assess_agency 0 "NegEv" [("novelty_rating", -9)] none).agency_score < 0 := by
  norm_num +decide [assess_agency, agency_score, weighted_sum, total_weight, dimensions,
    eget, autonomousGoalFormation_assess, counterfactualReasoning_assess,
    selfModification_assess, ethicalReasoning_assess, creativeGeneration_assess,
    temporalPlanning_assess, socialAgency_assess, roundTo, rndHalfEven]

/-- Claim C3.  The correlation label follows the ordered first-match decision
list: (consciousness > 0.5 and agency > 0.5) gives "aligned"; else
(consciousness > 0.5 and agency < 0.3) gives "paradox"; else
(consciousness < 0.2 and agency > 0.5) gives "zombie"; else the catch-all
"proportional".  Moreover, on an all-zero evidence record with
consciousness_score = 0.3, every dimension score is 0, the composite is 0,
the interpretation is the MINIMAL AGENCY band, and the correlation label is
"proportional". -/
theorem correlation_decision_list_first_match (c a : ℚ) :
    (0.5 < c → 0.5 < a → interpret_correlation c a =
      "ALIGNED: High consciousness correlates with high agency") ∧
    (0.5 < c → a < 0.3 → interpret_correlation c a =
      "PARADOX: Consciousness present but agency limited (locked-in scenario)") ∧
    (c < 0.2 → 0.5 < a → interpret_correlation c a =
      "ZOMBIE: High agency without consciousness (philosophical zombie scenario)") ∧
    (¬(0.5 < c ∧ 0.5 < a) → ¬(0.5 < c ∧ a < 0.3) → ¬(c < 0.2 ∧ 0.5 < a) →
      interpret_correlation c a =
        "PROPORTIONAL: Agency roughly proportional to consciousness level") ∧
    ((assess_agency 0 "Thermostat" allzero_evidence (some 0.3)).dimensions.map
        (fun kv => kv.2.score) = [0, 0, 0, 0, 0, 0, 0] ∧
      (assess_agency 0 "Thermostat" allzero_evidence (some 0.3)).agency_score = 0 ∧
      (assess_agency 0 "Thermostat" allzero_evidence (some 0.3)).interpretation =
        "MINIMAL AGENCY: Reactive system without genuine agency" ∧
      ((assess_agency 0 "Thermostat" allzero_evidence
          (some 0.3)).consciousness_correlation.map (fun x => x.interpretation)) =
        some "PROPORTIONAL: Agency roughly proportional to consciousness level") := by
  refine ⟨?_, ?_, ?_, ?_, ?_⟩
  · intro hc ha
    unfold interpret_correlation
    rw [if_pos ⟨hc, ha⟩]
  · intro hc ha
    have h1 : ¬((0.5 : ℚ) < c ∧ 0.5 < a) := by rintro ⟨-, h⟩; linarith
    unfold interpret_correlation
    rw [if_neg h1, if_pos ⟨hc, ha⟩]
  · intro hc ha
    have h1 : ¬((0.5 : ℚ) < c ∧ 0.5 < a) := by rintro ⟨h, -⟩; linarith
    have h2 : ¬((0.5 : ℚ) < c ∧ a < 0.3) := by rintro ⟨h, -⟩; linarith
    unfold interpret_correlation
    rw [if_neg h1, if_neg h2, if_pos ⟨hc, ha⟩]
  · intro h1 h2 h3
    unfold interpret_correlation
    rw [if_neg h1, if_neg h2, if_neg h3]
  · norm_num +decide [assess_agency, agency_score, weighted_sum, total_weight,
      dimensions, eget, autonomousGoalFormation_assess, counterfactualReasoning_assess,
      selfModification_assess, ethicalReasoning_assess, creativeGeneration_assess,
      temporalPlanning_assess, socialAgency_assess, allzero_evidence,
      roundTo, rndHalfEven, interpret_agency, interpret_correlation, Option.map]

/-- Witness for claim C3: the four decision-list branches instantiated at
concrete consciousness/agency pairs. -/
theorem correlation_decision_list_first_match_witness :
    interpret_correlation 0.6 0.6 =
      "ALIGNED: High consciousness correlates with high agency" ∧
    interpret_correlation 0.6 0.1 =
      "PARADOX: Consciousness present but agency limited (locked-in scenario)" ∧
    interpret_correlation 0.1 0.6 =
      "ZOMBIE: High agency without consciousness (philosophical zombie scenario)" ∧
    interpret_correlation 0.1 0.1 =
      "PROPORTIONAL: Agency roughly proportional to consciousness level" :=
  ⟨(correlation_decision_list_first_match 0.6 0.6).1 (by norm_num) (by norm_num),
   (correlation_decision_list_first_match 0.6 0.1).2.1 (by norm_num) (by norm_num),
   (correlation_decision_list_first_match 0.1 0.6).2.2.1 (by norm_num) (by norm_num),
   (correlation_decision_list_first_match 0.1 0.1).2.2.2.1
     (by norm_num) (by norm_num) (by norm_num)⟩

/-- Claim C4.  Two `assess_agency` calls with identical subject name,
evidence record and consciousness score (differing only in the wall-clock
reading) produce identical dimension scores, composite agency score,
interpretation label, correlation sub-record, and all other report fields
apart from the timestamp and the proof digest. -/
theorem assess_agency_deterministic (t1 t2 : ℕ) (n : String) (ev : Evidence)
    (c : Option ℚ) :
    (assess_agency t1 n ev c).system = (assess_agency t2 n ev c).system ∧
    (assess_agency t1 n ev c).dimensions = (assess_agency t2 n ev c).dimensions ∧
    (assess_agency t1 n ev c).agency_score = (assess_agency t2 n ev c).agency_score ∧
    (assess_agency t1 n ev c).interpretation =
      (assess_agency t2 n ev c).interpretation ∧
    (assess_agency t1 n ev c).consciousness_correlation =
      (assess_agency t2 n ev c).consciousness_correlation ∧
    (assess_agency t1 n ev c).thesis = (assess_agency t2 n ev c).thesis ∧
    (assess_agency t1 n ev c).provenance_module =
      (assess_agency t2 n ev c).provenance_module ∧
    (assess_agency t1 n ev c).provenance_framework =
      (assess_agency t2 n ev c).provenance_framework :=
  ⟨rfl, rfl, rfl, rfl, rfl, rfl, rfl, rfl⟩

/-- Claim C5.  The composite agency score is the weighted sum of the seven
dimension scores divided by max(0.001, sum of weights), with fixed weights
1.2, 1.0, 1.1, 0.9, 1.0, 0.9, 0.8 in the order Autonomous Goal Formation,
Counterfactual Reasoning, Self-Modification, Ethical Reasoning, Creative
Generation, Temporal Planning, Social Agency; the reported score is that
composite scaled to 100 and rounded to one decimal. -/
theorem composite_weighted_average_formula (ev : Evidence) :
    agency_score ev =
      (autonomousGoalFormation_assess ev * 1.2 +
       counterfactualReasoning_assess ev * 1.0 +
       selfModification_assess ev * 1.1 +
       ethicalReasoning_assess ev * 0.9 +
       creativeGeneration_assess ev * 1.0 +
       temporalPlanning_assess ev * 0.9 +
       socialAgency_assess ev * 0.8) /
        max 0.001 (1.2 + 1.0 + 1.1 + 0.9 + 1.0 + 0.9 + 0.8) ∧
    dimensions.map (fun d => (d.name, d.weight)) =
      [("Autonomous Goal Formation", 1.2), ("Counterfactual Reasoning", 1.0),
       ("Self-Modification", 1.1), ("Ethical Reasoning", 0.9),
       ("Creative Generation", 1.0), ("Temporal Planning", 0.9),
       ("Social Agency", 0.8)] ∧
    ∀ t n c, (assess_agency t n ev c).agency_score =
      roundTo 1 (agency_score ev * 100) := by
  refine ⟨?_, rfl, fun t n c => rfl⟩
  rw [agency_score, weighted_sum_eq, total_weight_eq]
  norm_num

/-- Claim C6.  The interpretation label is chosen by strict-greater-than
thresholds evaluated top-down with first match winning: composite > 0.7 the
full band, > 0.4 the partial band, > 0.15 the limited band, else the minimal
band; a composite of exactly 0.7 resolves to the lower ("partial") band. -/
theorem interpretation_thresholds_strict (s : ℚ) :
    (0.7 < s → interpret_agency s =
      "FULL AGENCY: System demonstrates autonomous, creative, ethical action capability") ∧
    (0.4 < s → s ≤ 0.7 → interpret_agency s =
      "PARTIAL AGENCY: Significant autonomous capabilities with limitations") ∧
    (0.15 < s → s ≤ 0.4 → interpret_agency s =
      "LIMITED AGENCY: Basic goal-directed behavior without full autonomy") ∧
    (s ≤ 0.15 → interpret_agency s =
      "MINIMAL AGENCY: Reactive system without genuine agency") ∧
    interpret_agency 0.7 =
      "PARTIAL AGENCY: Significant autonomous capabilities with limitations" := by
  refine ⟨?_, ?_, ?_, ?_, by norm_num [interpret_agency]⟩
  · intro h
    unfold interpret_agency
    rw [if_pos (by exact_mod_cast h)]
  · intro h1 h2
    unfold interpret_agency
    rw [if_neg (by simp only [gt_iff_lt, not_lt]; linarith), if_pos (by exact_mod_cast h1)]
  · intro h1 h2
    unfold interpret_agency
    rw [if_neg (by simp only [gt_iff_lt, not_lt]; linarith),
      if_neg (by simp only [gt_iff_lt, not_lt]; linarith), if_pos (by exact_mod_cast h1)]
  · intro h1
    unfold interpret_agency
    rw [if_neg (by simp only [gt_iff_lt, not_lt]; linarith),
      if_neg (by simp only [gt_iff_lt, not_lt]; linarith),
      if_neg (by simp only [gt_iff_lt, not_lt]; linarith)]

/-- Witness for claim C6: the four threshold bands instantiated at concrete
composite scores, including the boundary value 0.7. -/
theorem interpretation_thresholds_strict_witness :
    interpret_agency 0.8 =
      "FULL AGENCY: System demonstrates autonomous, creative, ethical action capability" ∧
    interpret_agency 0.7 =
      "PARTIAL AGENCY: Significant autonomous capabilities with limitations" ∧
    interpret_agency 0.2 =
      "LIMITED AGENCY: Basic goal-directed behavior without full autonomy" ∧
    interpret_agency 0.1 =
      "MINIMAL AGENCY: Reactive system without genuine agency" :=
  ⟨(interpretation_thresholds_strict 0.8).1 (by norm_num),
   (interpretation_thresholds_strict 0.7).2.2.2.2,
   (interpretation_thresholds_strict 0.2).2.2.1 (by norm_num) (by norm_num),
   (interpretation_thresholds_strict 0.1).2.2.2.1 (by norm_num)⟩

/-- Claim C7.  The proof digest of a report is the fixed-length (32 hex
characters) digest of the deterministic serialization of the report's other
fields, computed before the proof field is attached; hence any two reports
agreeing on all fields other than the proof field have equal proof
digests. -/
theorem proof_digest_function_of_core (t1 : ℕ) (n1 : String) (ev1 : Evidence)
    (c1 : Option ℚ) (t2 : ℕ) (n2 : String) (ev2 : Evidence) (c2 : Option ℚ) :
    (assess_agency t1 n1 ev1 c1).proof =
      "sha256:" ++ sha256_hexdigest_prefix32
        (serializeCore (assess_agency t1 n1 ev1 c1).toReportCore) ∧
    (sha256_hexdigest_prefix32
      (serializeCore (assess_agency t1 n1 ev1 c1).toReportCore)).length = 32 ∧
    ((assess_agency t1 n1 ev1 c1).toReportCore =
        (assess_agency t2 n2 ev2 c2).toReportCore →
      (assess_agency t1 n1 ev1 c1).proof = (assess_agency t2 n2 ev2 c2).proof) := by
  refine ⟨rfl, ?_, ?_⟩
  · simp [sha256_hexdigest_prefix32, String.length]
  · intro h
    have e1 : (assess_agency t1 n1 ev1 c1).proof =
      proofOf (assess_agency t1 n1 ev1 c1).toReportCore := rfl
    have e2 : (assess_agency t2 n2 ev2 c2).proof =
      proofOf (assess_agency t2 n2 ev2 c2).toReportCore := rfl
    rw [e1, e2, h]

/-- Witness for claim C7: two reports assembled from the same inputs have
cores that agree, so their proof digests agree. -/
theorem proof_digest_function_of_core_witness :
    (assess_agency 3 "W" [] none).proof = (assess_agency 3 "W" [] none).proof :=
  (proof_digest_function_of_core 3 "W" [] none 3 "W" [] none).2.2 rfl

/-- Claim C8.  An entirely empty evidence record produces exactly the same
report as the record mapping every one of the 14 fields to 0 (the defaulting
contract of `evidence.get(field, 0)`). -/
theorem empty_evidence_defaulting (t : ℕ) (n : String) (c : Option ℚ) :
    assess_agency t n [] c = assess_agency t n allzero_evidence c := rfl

/-- Claim C9, counterexample.  An `assess_agency` call mutates engine state
beyond the history append: the `score` attribute stored on each long-lived
dimension object is overwritten, so after assessing the `ORION_Agent`
evidence on a fresh engine the cached dimension scores differ from their
initial all-zero values. -/
theorem dimension_cache_mutated_by_assess :
    (engine_assess_agency AgencyEngine.init 0 "ORION_Agent" orion_evidence
        (some 65)).2.dimension_score_cache ≠
      AgencyEngine.init.dimension_score_cache := by
  have h0 : (engine_assess_agency AgencyEngine.init 0 "ORION_Agent" orion_evidence
      (some 65)).2.dimension_score_cache =
      [0.85, 0.8, 0.85, 19/30, 0.85, 0.85, 0.62] := by
    norm_num +decide [engine_assess_agency, dimensions, eget,
      autonomousGoalFormation_assess, counterfactualReasoning_assess,
      selfModification_assess, ethicalReasoning_assess, creativeGeneration_assess,
      temporalPlanning_assess, socialAgency_assess, orion_evidence]
  rw [h0]
  simp only [AgencyEngine.init, List.replicate]
  intro h
  simp only [List.cons.injEq] at h
  norm_num at h

/-- Claim C9, amended.  An `assess_agency` call appends exactly the returned
report to the history (previously stored reports unchanged), and its only
other effect on engine state is overwriting each dimension object's cached
score with the freshly computed dimension score for the supplied
evidence. -/
theorem engine_frame_history_append_and_cache (e : AgencyEngine) (t : ℕ)
    (n : String) (ev : Evidence) (c : Option ℚ) :
    (engine_assess_agency e t n ev c).2.assessments =
      e.assessments ++ [(engine_assess_agency e t n ev c).1] ∧
    (engine_assess_agency e t n ev c).2.assessments.length =
      e.assessments.length + 1 ∧
    (engine_assess_agency e t n ev c).1 = assess_agency t n ev c ∧
    (engine_assess_agency e t n ev c).2.dimension_score_cache =
      dimensions.map (fun d => d.assess ev) := by
  refine ⟨rfl, ?_, rfl, rfl⟩
  simp [engine_assess_agency]

/-- Claim C10.  For the evidence record mapping goal_novelty to -10, the
Autonomous Goal Formation scorer returns -3, strictly below 0, and the
reported composite agency score is -52.2, strictly below 0: the dimension
formulas clamp only from above and the aggregator does not clamp the
composite either. -/
theorem negative_evidence_propagates_below_zero :
    autonomousGoalFormation_assess [("goal_novelty", -10)] = -3 ∧
    autonomousGoalFormation_assess [("goal_novelty", -10)] < 0 ∧
    agency_score [("goal_novelty", -10)] < 0 ∧
    (assess_agency 0 "SubZero" [("goal_novelty", -10)] none).agency_score = -52.2 ∧
    (assess_agency 0 "SubZero" [("goal_novelty", -10)] none).agency_score < 0 := by
  norm_num +decide [assess_agency, agency_score, weighted_sum, total_weight, dimensions,
    eget, autonomousGoalFormation_assess, counterfactualReasoning_assess,
    selfModification_assess, ethicalReasoning_assess, creativeGeneration_assess,
    temporalPlanning_assess, socialAgency_assess, roundTo, rndHalfEven]
